import Mathlib

set_option maxRecDepth 8000

/-!
Verification development for the Synergos Driver repository.

The repository ships only documentation of the Driver client: a README with a
usage example and a tutorial notebook (`examples/abalone/regression_tabular_abalone.ipynb`).
The Driver implementation itself is not part of the repository, so the
development below has two layers:

* a faithful embedding of the two documented call sequences (README
  "How to use?" block and the notebook's code cells) as Lean data, over which
  claims about the documentation are settled directly; and
* a model of the Driver client, written from the specification's words
  (marked `Modelled from the spec:`), against which behavioural claims about
  the absent implementation are settled.
-/

namespace Synergos

/-- Python-level argument values appearing in the documented calls.  Decimal
literals are kept verbatim as strings (`dec "0.0005"`) so that no floating
point enters the model. -/
inductive PyVal where
  | str (s : String)
  | int (n : Int)
  | dec (s : String)
  | bool (b : Bool)
  | pynone
  | list (xs : List PyVal)
  | dict (xs : List (String × PyVal))

/-- Sub-resources exposed by the Driver facade. -/
inductive Resource where
  | collaborations
  | projects
  | experiments
  | runs
  | participants
  | registrations
  | tags
  | alignments
  | models
  | validations
  | predictions
deriving DecidableEq

/-- Phase of each sub-resource: phase 1 is connection set-up, phase 2 is
alignment/training, phase 3 is validation/prediction. -/
def Resource.phase : Resource → Nat
  | .alignments => 2
  | .models => 2
  | .validations => 3
  | .predictions => 3
  | _ => 1

/-- One documented method call on a Driver sub-resource: the sub-resource it
is invoked on, the method name, positional arguments and keyword arguments in
source order. -/
structure Call where
  resource : Resource
  method : String
  positional : List PyVal
  named : List (String × PyVal)

/-- Keyword lookup in a Python-style keyword-argument list. -/
def lookupField : List (String × PyVal) → String → Option PyVal
  | [], _ => Option.none
  | (k, v) :: rest, key => if k = key then some v else lookupField rest key

/-- Call sequence of the README's "How to use?" example (src/README.md,
lines 32-258), in source order.  Attribute accesses such as
`collab_task = driver.collaborations` are bindings, not calls, and are not
part of the sequence. -/
def readmeCalls : List Call :=
  [ { resource := .collaborations, method := "configure_logger",
      positional := [],
      named := [("host", .str "172.20.0.14"), ("port", .int 9000),
                ("sysmetrics_port", .int 9100), ("director_port", .int 9200),
                ("ttp_port", .int 9300), ("worker_port", .int 9400),
                ("ui_port", .int 9000), ("secure", .bool false)] },
    { resource := .collaborations, method := "configure_mlops",
      positional := [],
      named := [("host", .str "172.20.0.15"), ("port", .int 5500),
                ("ui_port", .int 5500), ("secure", .bool false)] },
    { resource := .collaborations, method := "configure_mq",
      positional := [],
      named := [("host", .str "172.20.0.16"), ("port", .int 5672),
                ("ui_port", .int 15672), ("secure", .bool false)] },
    { resource := .collaborations, method := "create",
      positional := [.str "test_collaboration"], named := [] },
    { resource := .projects, method := "create",
      positional := [],
      named := [("collab_id", .str "test_collaboration"),
                ("project_id", .str "test_project"),
                ("action", .str "classify"),
                ("incentives", .dict [("tier_1", .list []), ("tier_2", .list [])])] },
    { resource := .experiments, method := "create",
      positional := [],
      named := [("collab_id", .str "test_collaboration"),
                ("project_id", .str "test_project"),
                ("expt_id", .str "test_experiment"),
                ("model", .list
                  [ .dict [("activation", .str "relu"), ("is_input", .bool true),
                           ("l_type", .str "Conv2d"),
                           ("structure", .dict
                             [("in_channels", .int 1), ("out_channels", .int 4),
                              ("kernel_size", .int 3), ("stride", .int 1),
                              ("padding", .int 1)])],
                    .dict [("activation", .pynone), ("is_input", .bool false),
                           ("l_type", .str "Flatten"),
                           ("structure", .dict [])],
                    .dict [("activation", .str "softmax"), ("is_input", .bool false),
                           ("l_type", .str "Linear"),
                           ("structure", .dict
                             [("bias", .bool true), ("in_features", .int (4 * 28 * 28)),
                              ("out_features", .int 3)])] ])] },
    { resource := .runs, method := "create",
      positional := [],
      named := [("collab_id", .str "test_collaboration"),
                ("project_id", .str "test_project"),
                ("expt_id", .str "test_experiment"),
                ("run_id", .str "test_run"),
                ("rounds", .int 2), ("epochs", .int 1),
                ("base_lr", .dec "0.0005"), ("max_lr", .dec "0.005"),
                ("criterion", .str "NLLLoss")] },
    { resource := .participants, method := "create",
      positional := [], named := [("participant_id", .str "worker_1")] },
    { resource := .participants, method := "create",
      positional := [], named := [("participant_id", .str "worker_2")] },
    { resource := .registrations, method := "add_node",
      positional := [],
      named := [("host", .str "172.17.0.2"), ("port", .int 8020),
                ("f_port", .int 5000), ("log_msgs", .bool true),
                ("verbose", .bool true)] },
    { resource := .registrations, method := "create",
      positional := [],
      named := [("collab_id", .str "test_collaboration"),
                ("project_id", .str "test_project"),
                ("participant_id", .str "worker_1"),
                ("role", .str "host")] },
    { resource := .registrations, method := "add_node",
      positional := [],
      named := [("host", .str "172.17.0.3"), ("port", .int 8020),
                ("f_port", .int 5000), ("log_msgs", .bool true),
                ("verbose", .bool true)] },
    { resource := .registrations, method := "create",
      positional := [],
      named := [("collab_id", .str "test_collaboration"),
                ("project_id", .str "test_project"),
                ("participant_id", .str "worker_2"),
                ("role", .str "guest")] },
    { resource := .tags, method := "create",
      positional := [],
      named := [("collab_id", .str "test_collaboration"),
                ("project_id", .str "test_project"),
                ("participant_id", .str "worker_1"),
                ("train", .list [.list [.str "train"]]),
                ("evaluate", .list [.list [.str "evaluate"]])] },
    { resource := .tags, method := "create",
      positional := [],
      named := [("collab_id", .str "test_collaboration"),
                ("project_id", .str "test_project"),
                ("participant_id", .str "worker_2"),
                ("train", .list [.list [.str "train"]])] },
    { resource := .alignments, method := "create",
      positional := [],
      named := [("collab_id", .str "test_collaboration"),
                ("project_id", .str "test_project"),
                ("verbose", .bool false), ("log_msg", .bool false)] },
    { resource := .models, method := "create",
      positional := [],
      named := [("collab_id", .str "test_collaboration"),
                ("project_id", .str "test_project"),
                ("expt_id", .str "test_experiment"),
                ("run_id", .str "test_run"),
                ("log_msg", .bool false), ("verbose", .bool false)] },
    { resource := .validations, method := "create",
      positional := [],
      named := [("collab_id", .str "test_collaboration"),
                ("project_id", .str "test_project"),
                ("expt_id", .str "test_experiment"),
                ("run_id", .str "test_run"),
                ("log_msg", .bool false), ("verbose", .bool false)] },
    { resource := .predictions, method := "create",
      positional := [],
      named := [("collab_id", .str "test_collaboration"),
                ("tags", .dict [("test_project", .list [.list [.str "predict"]])]),
                ("participant_id", .str "worker_1"),
                ("project_id", .str "test_project"),
                ("expt_id", .str "test_experiment"),
                ("run_id", .str "test_run")] } ]

/-- Call sequence of the tutorial notebook's code cells
(src/examples/abalone/regression_tabular_abalone.ipynb), in cell order.  The
`from synergos import Driver` / `driver = Driver(host=host, port=port)`
configuration cell and the `display(...)` presentation calls are not
sub-resource method calls and are not part of the sequence. -/
def notebookCalls : List Call :=
  [ { resource := .collaborations, method := "create",
      positional := [.str "test_collaboration"], named := [] },
    { resource := .projects, method := "create",
      positional := [],
      named := [("collab_id", .str "test_collaboration"),
                ("project_id", .str "test_project"),
                ("action", .str "regress"),
                ("incentives", .dict [("tier_1", .list []), ("tier_2", .list [])])] },
    { resource := .experiments, method := "create",
      positional := [],
      named := [("collab_id", .str "test_collaboration"),
                ("project_id", .str "test_project"),
                ("expt_id", .str "test_experiment"),
                ("model", .list
                  [ .dict [("activation", .str ""), ("is_input", .bool true),
                           ("l_type", .str "Linear"),
                           ("structure", .dict
                             [("bias", .bool true), ("in_features", .int 28),
                              ("out_features", .int 1)])] ])] },
    { resource := .runs, method := "create",
      positional := [],
      named := [("collab_id", .str "test_collaboration"),
                ("project_id", .str "test_project"),
                ("expt_id", .str "test_experiment"),
                ("run_id", .str "test_run"),
                ("rounds", .int 2), ("epochs", .int 1),
                ("base_lr", .dec "0.0005"), ("max_lr", .dec "0.005"),
                ("criterion", .str "MSELoss")] },
    { resource := .participants, method := "create",
      positional := [], named := [("participant_id", .str "worker_1")] },
    { resource := .participants, method := "create",
      positional := [], named := [("participant_id", .str "worker_2")] },
    { resource := .registrations, method := "add_node",
      positional := [],
      named := [("host", .str "172.17.0.2"), ("port", .int 8020),
                ("f_port", .int 5000), ("log_msgs", .bool true),
                ("verbose", .bool true)] },
    { resource := .registrations, method := "list_nodes",
      positional := [], named := [] },
    { resource := .registrations, method := "create",
      positional := [],
      named := [("collab_id", .str "test_collaboration"),
                ("project_id", .str "test_project"),
                ("participant_id", .str "worker_1"),
                ("role", .str "host")] },
    { resource := .registrations, method := "add_node",
      positional := [],
      named := [("host", .str "172.17.0.3"), ("port", .int 8020),
                ("f_port", .int 5000), ("log_msgs", .bool true),
                ("verbose", .bool true)] },
    { resource := .registrations, method := "list_nodes",
      positional := [], named := [] },
    { resource := .registrations, method := "create",
      positional := [],
      named := [("collab_id", .str "test_collaboration"),
                ("project_id", .str "test_project"),
                ("participant_id", .str "worker_2"),
                ("role", .str "guest")] },
    { resource := .tags, method := "create",
      positional := [],
      named := [("collab_id", .str "test_collaboration"),
                ("project_id", .str "test_project"),
                ("participant_id", .str "worker_1"),
                ("train", .list [.list [.str "train"]]),
                ("evaluate", .list [.list [.str "evaluate"]])] },
    { resource := .tags, method := "create",
      positional := [],
      named := [("collab_id", .str "test_collaboration"),
                ("project_id", .str "test_project"),
                ("participant_id", .str "worker_2"),
                ("train", .list [.list [.str "train"]]),
                ("evaluate", .list [.list [.str "evaluate"]])] },
    { resource := .alignments, method := "create",
      positional := [],
      named := [("collab_id", .str "test_collaboration"),
                ("project_id", .str "test_project"),
                ("verbose", .bool false), ("log_msg", .bool false)] },
    { resource := .models, method := "create",
      positional := [],
      named := [("collab_id", .str "test_collaboration"),
                ("project_id", .str "test_project"),
                ("expt_id", .str "test_experiment"),
                ("run_id", .str "test_run"),
                ("log_msg", .bool false), ("verbose", .bool false)] },
    { resource := .validations, method := "create",
      positional := [],
      named := [("collab_id", .str "test_collaboration"),
                ("project_id", .str "test_project"),
                ("expt_id", .str "test_experiment"),
                ("run_id", .str "test_run"),
                ("log_msg", .bool false), ("verbose", .bool false)] },
    { resource := .predictions, method := "create",
      positional := [],
      named := [("collab_id", .str "test_collaboration"),
                ("tags", .dict [("test_project", .list [.list [.str "predict"]])]),
                ("participant_id", .str "worker_1"),
                ("project_id", .str "test_project"),
                ("expt_id", .str "test_experiment"),
                ("run_id", .str "test_run")] } ]

/-- Shape of a call: which sub-resource it is on and which method is invoked,
with argument values erased. -/
def Call.shape (c : Call) : Resource × String :=
  (c.resource, c.method)

/-- Method-shape sequence of a documented call sequence. -/
def shapes (calls : List Call) : List (Resource × String) :=
  calls.map Call.shape

/-- Sub-resource sequence of the `create` calls of a documented call
sequence. -/
def createSkeleton (calls : List Call) : List Resource :=
  (calls.filter (fun c => c.method == "create")).map Call.resource

/-- Identifier-valued keyword fields of the Driver interface. -/
def identFields : List String :=
  ["collab_id", "project_id", "expt_id", "run_id", "participant_id"]

/-- Identifier introduced by a phase-1 `create` call: the created entity's own
identifier (passed positionally for collaborations, by keyword otherwise).
Registrations and tags associate existing entities and introduce no new
identifier. -/
def introducedId (c : Call) : Option String :=
  if c.method = "create" ∧ c.resource.phase = 1 then
    match c.resource with
    | .collaborations =>
        match c.positional with
        | [.str s] => some s
        | _ => Option.none
    | .projects =>
        match lookupField c.named "project_id" with
        | some (.str s) => some s
        | _ => Option.none
    | .experiments =>
        match lookupField c.named "expt_id" with
        | some (.str s) => some s
        | _ => Option.none
    | .runs =>
        match lookupField c.named "run_id" with
        | some (.str s) => some s
        | _ => Option.none
    | .participants =>
        match lookupField c.named "participant_id" with
        | some (.str s) => some s
        | _ => Option.none
    | _ => Option.none
  else Option.none

/-- Whether every identifier-valued keyword argument of a phase-2/3 `create`
call is drawn from the given set of already-introduced identifiers. -/
def identsIntroduced (intro : List String) (c : Call) : Bool :=
  if c.method == "create" && decide (2 ≤ c.resource.phase) then
    c.named.all (fun kv =>
      if kv.1 ∈ identFields then
        match kv.2 with
        | .str s => s ∈ intro
        | _ => false
      else true)
  else true

/-- Referential closure of a call sequence: walking the sequence in order,
every identifier a phase-2/3 `create` call passes must have been introduced by
an earlier phase-1 `create` call of the same sequence. -/
def refClosed (intro : List String) : List Call → Bool
  | [] => true
  | c :: rest =>
      identsIntroduced intro c &&
        refClosed (match introducedId c with
                   | some s => intro ++ [s]
                   | Option.none => intro) rest

/-- Methods of the collaborations sub-resource that configure infrastructure
endpoints before `create` is issued. -/
def isConfigureMethod (m : String) : Bool :=
  m == "configure_logger" || m == "configure_mlops" || m == "configure_mq"

/-- Verbatim text of the README's run-creation example (src/README.md,
lines 131-141, step 1D); the statement ends there, the next non-blank line of
the example opens the following step. -/
def readmeRunsCreateSnippet : String :=
  "driver.runs.create(\n    collab_id=\"test_collaboration\",\n    project_id=\"test_project\",\n    expt_id=\"test_experiment\",\n    run_id=\"test_run\",\n    rounds=2, \n    epochs=1,\n    base_lr=0.0005,\n    max_lr=0.005,\n    criterion=\"NLLLoss\"\n"

/-- Verbatim text of the notebook's run-creation code cell (cell 1D of
src/examples/abalone/regression_tabular_abalone.ipynb). -/
def notebookRunsCreateCell : String :=
  "driver.runs.create(\n    collab_id=\"test_collaboration\",\n    project_id=\"test_project\",\n    expt_id=\"test_experiment\",\n    run_id=\"test_run\",\n    rounds=2, \n    epochs=1,\n    base_lr=0.0005,\n    max_lr=0.005,\n    criterion=\"MSELoss\"\n)"

/-- Scans characters tracking round-bracket nesting depth; fails (returns
`none`) on a close bracket with no matching open bracket, otherwise returns
the final depth. -/
def parenScan : List Char → Nat → Option Nat
  | [], depth => some depth
  | c :: rest, depth =>
      if c = '(' then parenScan rest (depth + 1)
      else if c = ')' then
        match depth with
        | 0 => Option.none
        | d + 1 => parenScan rest d
      else parenScan rest depth

/-- Whether the round brackets of a piece of source text are balanced: every
close bracket matches an open bracket and every open bracket is closed. -/
def parenBalanced (s : String) : Bool :=
  match parenScan s.data 0 with
  | some 0 => true
  | _ => false

/-- Modelled from the spec: the Driver implementation is absent from this
repository, so its error kinds are taken from §7 of the specification —
ValidationError (missing/invalid local parameters), ConnectionError
(transport failure), ServiceError (non-success response), NotFoundError
(identifier absent remotely), UnsupportedOperationError (update/delete on a
phase-2/3 resource). -/
inductive DriverError where
  | validationError
  | connectionError
  | serviceError
  | notFoundError
  | unsupportedOperationError
deriving DecidableEq

/-- Modelled from the spec: an HTTP request emitted by the Driver against the
configured base address — the target sub-resource endpoint, the operation
kind, and the serialized payload. -/
structure Request where
  resource : Resource
  operation : String
  payload : List (String × PyVal)

/-- Modelled from the spec: a response of the remote coordination service — an
HTTP status and a decoded payload. -/
structure Response where
  status : Nat
  payload : List (String × PyVal)

/-- Modelled from the spec: the remote coordination service as a black-box
reached over HTTP; `none` models a transport failure (no response at all). -/
def Service : Type :=
  Request → Option Response

/-- HTTP success statuses (2xx). -/
def successStatus (status : Nat) : Bool :=
  200 ≤ status && status < 300

/-- Modelled from the spec: the required identifier fields each sub-resource's
`create` validates, taken from §3's data model — each entity carries its own
identifier, a registration or tag set associates a participant to a project,
and the phase-2/3 triggers name the schedule units they operate on, as in
§8's example calls. -/
def requiredIdFields : Resource → List String
  | .collaborations => ["collab_id"]
  | .projects => ["project_id"]
  | .experiments => ["project_id", "expt_id"]
  | .runs => ["project_id", "expt_id", "run_id"]
  | .participants => ["participant_id"]
  | .registrations => ["project_id", "participant_id"]
  | .tags => ["project_id", "participant_id"]
  | .alignments => ["project_id"]
  | .models => ["project_id", "expt_id", "run_id"]
  | .validations => ["project_id", "expt_id", "run_id"]
  | .predictions => ["project_id", "expt_id", "run_id", "participant_id"]

/-- Whether one keyword field is present and a non-empty string. -/
def presentNonEmpty (fields : List (String × PyVal)) (key : String) : Bool :=
  match lookupField fields key with
  | some (.str s) => s != ""
  | _ => false

/-- Whether every required identifier of the sub-resource is present and
non-empty in the given keyword fields. -/
def validIdents (r : Resource) (fields : List (String × PyVal)) : Bool :=
  (requiredIdFields r).all (presentNonEmpty fields)

/-- Outcome of one Driver operation: the value returned to the caller (or the
error raised), together with the HTTP requests the call emitted, in order. -/
structure OpResult where
  result : Except DriverError (List (String × PyVal))
  requests : List Request

/-- Decodes a response of the remote service: a 2xx status yields the decoded
payload, a 404 surfaces as NotFoundError, any other non-success status as
ServiceError. -/
def decodeResponse (resp : Response) : Except DriverError (List (String × PyVal)) :=
  if successStatus resp.status then .ok resp.payload
  else if resp.status = 404 then .error .notFoundError
  else .error .serviceError

/-- Modelled from the spec: `create(**fields)` of the absent Driver
implementation — validates that the required identifiers are present and
non-empty before anything is sent, then emits one creation request (no
retries) and decodes the response; a transport failure surfaces as
ConnectionError. -/
def create (svc : Service) (r : Resource) (fields : List (String × PyVal)) : OpResult :=
  if validIdents r fields then
    let req : Request := { resource := r, operation := "create", payload := fields }
    match svc req with
    | Option.none => { result := .error .connectionError, requests := [req] }
    | some resp => { result := decodeResponse resp, requests := [req] }
  else
    { result := .error .validationError, requests := [] }

/-- Modelled from the spec: `update(id, **fields)` of the absent Driver
implementation — supported only for phase-1 resources; on a phase-2/3
resource it raises UnsupportedOperationError without emitting a request. -/
def update (svc : Service) (r : Resource) (id : String)
    (fields : List (String × PyVal)) : OpResult :=
  if r.phase = 1 then
    let req : Request :=
      { resource := r, operation := "update", payload := ("id", .str id) :: fields }
    match svc req with
    | Option.none => { result := .error .connectionError, requests := [req] }
    | some resp => { result := decodeResponse resp, requests := [req] }
  else
    { result := .error .unsupportedOperationError, requests := [] }

/-- Modelled from the spec: `delete(id)` of the absent Driver implementation —
supported only for phase-1 resources; on a phase-2/3 resource it raises
UnsupportedOperationError without emitting a request. -/
def delete (svc : Service) (r : Resource) (id : String) : OpResult :=
  if r.phase = 1 then
    let req : Request :=
      { resource := r, operation := "delete", payload := [("id", .str id)] }
    match svc req with
    | Option.none => { result := .error .connectionError, requests := [req] }
    | some resp => { result := decodeResponse resp, requests := [req] }
  else
    { result := .error .unsupportedOperationError, requests := [] }

/-- Logger endpoint configuration, with the fields of the README's
`configure_logger` call. -/
structure LoggerConfig where
  host : String
  port : Nat
  sysmetrics_port : Nat
  director_port : Nat
  ttp_port : Nat
  worker_port : Nat
  ui_port : Nat
  secure : Bool
deriving DecidableEq

/-- Experiment-tracking (MLOps) endpoint configuration, with the fields of
the README's `configure_mlops` call. -/
structure MlopsConfig where
  host : String
  port : Nat
  ui_port : Nat
  secure : Bool
deriving DecidableEq

/-- Message-queue endpoint configuration, with the fields of the README's
`configure_mq` call. -/
structure MqConfig where
  host : String
  port : Nat
  ui_port : Nat
  secure : Bool
deriving DecidableEq

/-- Worker-node connection configuration, with the fields of the documented
`add_node` call. -/
structure NodeConfig where
  host : String
  port : Nat
  f_port : Nat
  log_msgs : Bool
  verbose : Bool
deriving DecidableEq

/-- Observable client-side state of the Driver facade: the configured base
address, and — modelled from the documented usage, which the spec omits — the
infrastructure-endpoint configuration recorded by the collaborations
sub-resource's `configure_*` methods and the node configurations recorded by
the registrations sub-resource's `add_node` method. -/
structure DriverState where
  host : String
  port : Nat
  loggerConfig : Option LoggerConfig
  mlopsConfig : Option MlopsConfig
  mqConfig : Option MqConfig
  nodes : List NodeConfig
deriving DecidableEq

/-- State of the Driver facade just after construction with `(host, port)`:
no endpoint configuration recorded, no nodes added. -/
def initState (host : String) (port : Nat) : DriverState :=
  { host := host, port := port,
    loggerConfig := Option.none, mlopsConfig := Option.none,
    mqConfig := Option.none, nodes := [] }

/-- Operations of the Driver sub-resources, as invoked in the documented call
sequences: the four request/response operations of the spec's contract, and
the configuration-recording methods the documentation additionally shows. -/
inductive DriverOp where
  | createOp (r : Resource) (fields : List (String × PyVal))
  | readAllOp (r : Resource)
  | readOp (r : Resource) (id : String)
  | updateOp (r : Resource) (id : String) (fields : List (String × PyVal))
  | deleteOp (r : Resource) (id : String)
  | configureLogger (cfg : LoggerConfig)
  | configureMlops (cfg : MlopsConfig)
  | configureMq (cfg : MqConfig)
  | addNode (cfg : NodeConfig)
  | listNodes

/-- Modelled from the spec: effect of one Driver operation on the client-side
state.  The create/read/update/delete operations build and send a payload and
discard it — they leave the client state untouched — while `configure_logger`,
`configure_mlops`, `configure_mq` and `add_node` must record their arguments
on the client: the documented sequences call them long before the `create`
that consumes the recorded data, and `list_nodes` returns the nodes added so
far. -/
def stepState (s : DriverState) : DriverOp → DriverState
  | .createOp _ _ => s
  | .readAllOp _ => s
  | .readOp _ _ => s
  | .updateOp _ _ _ => s
  | .deleteOp _ _ => s
  | .configureLogger cfg => { s with loggerConfig := some cfg }
  | .configureMlops cfg => { s with mlopsConfig := some cfg }
  | .configureMq cfg => { s with mqConfig := some cfg }
  | .addNode cfg => { s with nodes := s.nodes ++ [cfg] }
  | .listNodes => s

/-- Client state after running a sequence of Driver operations from the given
state. -/
def runOps (s : DriverState) (ops : List DriverOp) : DriverState :=
  ops.foldl stepState s

/-- Whether an operation is one of the spec's per-sub-resource
create/read/update/delete operations. -/
def DriverOp.isCrud : DriverOp → Bool
  | .createOp _ _ => true
  | .readAllOp _ => true
  | .readOp _ _ => true
  | .updateOp _ _ _ => true
  | .deleteOp _ _ => true
  | _ => false

/-- Modelled from the spec: contract of the external coordination service for
registration creation — a registration request naming a participant that the
service does not know (one never created through the participants
sub-resource) is answered, but with a non-success status.  Whether that
status is 404 or another error code is left to the service. -/
def rejectsUnknownParticipant (svc : Service) (known : List String) : Prop :=
  ∀ req : Request, req.resource = .registrations → req.operation = "create" →
    ∀ p : String, lookupField req.payload "participant_id" = some (.str p) →
      p ∉ known →
      ∃ resp : Response, svc req = some resp ∧ successStatus resp.status = false

/-- Stub remote service that answers every request with an empty success
payload; used to instantiate service-polymorphic theorems. -/
def okService : Service :=
  fun _ => some { status := 200, payload := [] }

/-- C1: for every Driver sub-resource, a `create` call in which a required
identifier field is missing or empty raises ValidationError, and does so
before any network request is emitted — the request list of the call is
empty, so nothing reaches the remote service. -/
theorem create_missing_identifier_validates_before_network
    (svc : Service) (r : Resource) (fields : List (String × PyVal)) (key : String)
    (hreq : key ∈ requiredIdFields r)
    (hmiss : lookupField fields key = Option.none ∨
      lookupField fields key = some (.str "")) :
    (create svc r fields).result = .error .validationError ∧
      (create svc r fields).requests = [] := by
  have hkey : presentNonEmpty fields key = false := by
    rcases hmiss with h | h <;> simp [presentNonEmpty, h]
  have hval : validIdents r fields = false := by
    refine Bool.eq_false_iff.mpr fun ht => ?_
    have hall := List.all_eq_true.mp ht key hreq
    rw [hkey] at hall
    exact Bool.false_ne_true hall
  constructor <;> simp [create, hval]

/-- Witness for C1: projects.create with the project identifier absent
altogether. -/
theorem create_missing_identifier_validates_before_network_witness :
    ("project_id" ∈ requiredIdFields .projects ∧
      lookupField [("action", PyVal.str "classify")] "project_id" = Option.none) ∧
    ((create okService .projects [("action", PyVal.str "classify")]).result
        = .error .validationError ∧
      (create okService .projects [("action", PyVal.str "classify")]).requests = []) :=
  ⟨⟨by decide, rfl⟩,
    create_missing_identifier_validates_before_network okService .projects
      [("action", PyVal.str "classify")] "project_id" (by decide) (Or.inl rfl)⟩

/-- C2: `update` and `delete` on every phase-2/3 sub-resource (alignments,
models, validations, predictions) raise UnsupportedOperationError, while on
every phase-1 (connection-setup) sub-resource they are supported and never
raise UnsupportedOperationError, whatever the remote service answers. -/
theorem update_delete_phase_support (svc : Service) (r : Resource) (id : String)
    (fields : List (String × PyVal)) :
    (2 ≤ r.phase →
      (update svc r id fields).result = .error .unsupportedOperationError ∧
        (delete svc r id).result = .error .unsupportedOperationError) ∧
    (r.phase = 1 →
      (update svc r id fields).result ≠ .error .unsupportedOperationError ∧
        (delete svc r id).result ≠ .error .unsupportedOperationError) := by
  constructor
  · intro h2
    have h1 : ¬ r.phase = 1 := by omega
    constructor <;> simp [update, delete, h1]
  · intro h1
    constructor
    · rcases hr : svc (Request.mk r "update" (("id", .str id) :: fields)) with _ | resp
      · simp [update, h1, hr]
      · simp only [update, if_pos h1, hr]
        simp [decodeResponse]
        split_ifs <;> simp
    · rcases hr : svc (Request.mk r "delete" [("id", .str id)]) with _ | resp
      · simp [delete, h1, hr]
      · simp only [delete, if_pos h1, hr]
        simp [decodeResponse]
        split_ifs <;> simp

/-- Witness for C2: alignments (phase 2) reject update/delete, collaborations
(phase 1) never answer them with UnsupportedOperationError. -/
theorem update_delete_phase_support_witness :
    (2 ≤ Resource.alignments.phase ∧
      (update okService .alignments "a1" []).result
          = .error .unsupportedOperationError ∧
        (delete okService .alignments "a1").result
          = .error .unsupportedOperationError) ∧
    (Resource.collaborations.phase = 1 ∧
      (update okService .collaborations "c1" []).result
          ≠ .error .unsupportedOperationError ∧
        (delete okService .collaborations "c1").result
          ≠ .error .unsupportedOperationError) :=
  ⟨⟨by decide, (update_delete_phase_support okService .alignments "a1" []).1 (by decide)⟩,
    ⟨rfl, (update_delete_phase_support okService .collaborations "c1" []).2 rfl⟩⟩

/-- Stepping a state by an operation of the create/read/update/delete kind
leaves the state unchanged. -/
lemma stepState_crud (s : DriverState) (op : DriverOp) (h : op.isCrud = true) :
    stepState s op = s := by
  cases op <;> simp_all [stepState, DriverOp.isCrud]

/-- Running a sequence of create/read/update/delete operations leaves any
state unchanged. -/
lemma runOps_crud (s : DriverState) (ops : List DriverOp)
    (h : ∀ op ∈ ops, op.isCrud = true) : runOps s ops = s := by
  induction ops generalizing s with
  | nil => rfl
  | cons op rest ih =>
      have hop : op.isCrud = true := h op (List.mem_cons_self op rest)
      have hrest : ∀ o ∈ rest, o.isCrud = true := fun o ho => h o (List.mem_cons_of_mem op ho)
      simp only [runOps, List.foldl_cons]
      rw [stepState_crud s op hop]
      exact ih s hrest

/-- C3 counterexample: the claim that after any sequence of calls the client's
observable state equals its post-construction state fails — the documented
`add_node` operation of the registrations sub-resource records the node
configuration on the client, so a single `add_node` call already changes the
state. -/
theorem stateless_client_counterexample :
    ¬ (runOps (initState "0.0.0.0" 5000)
        [DriverOp.addNode
          { host := "172.17.0.2", port := 8020, f_port := 5000,
            log_msgs := true, verbose := true }]
      = initState "0.0.0.0" 5000) := by
  decide

/-- C3 amended: every create/read/update/delete operation of every Driver
sub-resource leaves the client's observable state unchanged — entity payloads
are built, sent and discarded within the call — so after any sequence of such
operations the state equals the post-construction state; only the
documentation's configuration-recording methods (`configure_logger`,
`configure_mlops`, `configure_mq`, `add_node`) mutate it. -/
theorem crud_ops_preserve_client_state (host : String) (port : Nat)
    (ops : List DriverOp) (h : ∀ op ∈ ops, op.isCrud = true) :
    runOps (initState host port) ops = initState host port :=
  runOps_crud (initState host port) ops h

/-- Witness for the amended C3: a create followed by a read and a delete
leaves the client exactly as constructed. -/
theorem crud_ops_preserve_client_state_witness :
    (∀ op ∈ [DriverOp.createOp .projects [("project_id", PyVal.str "test_project")],
             DriverOp.readAllOp .projects, DriverOp.deleteOp .projects "test_project"],
        op.isCrud = true) ∧
    runOps (initState "0.0.0.0" 5000)
        [DriverOp.createOp .projects [("project_id", PyVal.str "test_project")],
         DriverOp.readAllOp .projects, DriverOp.deleteOp .projects "test_project"]
      = initState "0.0.0.0" 5000 :=
  ⟨by intro op hop; fin_cases hop <;> rfl,
    crud_ops_preserve_client_state "0.0.0.0" 5000
      [DriverOp.createOp .projects [("project_id", PyVal.str "test_project")],
       DriverOp.readAllOp .projects, DriverOp.deleteOp .projects "test_project"]
      (by intro op hop; fin_cases hop <;> rfl)⟩

/-- C4: when the remote service answers the project-creation request with a
success payload whose project identifier is "test_project", `create` on the
projects sub-resource returns that payload, a structure whose project_id
field equals "test_project". -/
theorem project_create_returns_created_id (svc : Service)
    (fields : List (String × PyVal)) (resp : Response)
    (hval : validIdents .projects fields = true)
    (hresp : svc (Request.mk .projects "create" fields) = some resp)
    (hok : successStatus resp.status = true)
    (hid : lookupField resp.payload "project_id" = some (.str "test_project")) :
    (create svc .projects fields).result = .ok resp.payload ∧
      lookupField resp.payload "project_id" = some (.str "test_project") := by
  refine ⟨?_, hid⟩
  simp [create, hval, hresp, decodeResponse, hok]

/-- Witness for C4: the claim's concrete call against a stub service that
answers with a success payload carrying project_id "test_project". -/
theorem project_create_returns_created_id_witness :
    (validIdents .projects
        [("project_id", PyVal.str "test_project"), ("action", PyVal.str "classify"),
         ("incentives", PyVal.dict [("tier_1", PyVal.list []), ("tier_2", PyVal.list [])])]
      = true ∧
      (fun _ => some (Response.mk 200
          [("project_id", PyVal.str "test_project"), ("action", PyVal.str "classify")])
        : Service)
        (Request.mk .projects "create"
          [("project_id", PyVal.str "test_project"), ("action", PyVal.str "classify"),
           ("incentives", PyVal.dict [("tier_1", PyVal.list []), ("tier_2", PyVal.list [])])])
      = some (Response.mk 200
          [("project_id", PyVal.str "test_project"), ("action", PyVal.str "classify")])) ∧
    ((create
        (fun _ => some (Response.mk 200
          [("project_id", PyVal.str "test_project"), ("action", PyVal.str "classify")]))
        .projects
        [("project_id", PyVal.str "test_project"), ("action", PyVal.str "classify"),
         ("incentives", PyVal.dict [("tier_1", PyVal.list []), ("tier_2", PyVal.list [])])]).result
      = .ok [("project_id", PyVal.str "test_project"), ("action", PyVal.str "classify")] ∧
      lookupField [("project_id", PyVal.str "test_project"), ("action", PyVal.str "classify")]
          "project_id"
        = some (.str "test_project")) :=
  ⟨⟨by decide, rfl⟩,
    project_create_returns_created_id
      (fun _ => some (Response.mk 200
        [("project_id", PyVal.str "test_project"), ("action", PyVal.str "classify")]))
      [("project_id", PyVal.str "test_project"), ("action", PyVal.str "classify"),
       ("incentives", PyVal.dict [("tier_1", PyVal.list []), ("tier_2", PyVal.list [])])]
      (Response.mk 200
        [("project_id", PyVal.str "test_project"), ("action", PyVal.str "classify")])
      (by decide) rfl (by decide) rfl⟩

/-- C5: when the remote service answers the run-creation request with HTTP
500, `create` on the runs sub-resource raises ServiceError, and exactly one
request was emitted — the call is not retried. -/
theorem run_create_service_error_no_retry (svc : Service)
    (fields : List (String × PyVal)) (resp : Response)
    (hval : validIdents .runs fields = true)
    (hresp : svc (Request.mk .runs "create" fields) = some resp)
    (h500 : resp.status = 500) :
    (create svc .runs fields).result = .error .serviceError ∧
      (create svc .runs fields).requests = [Request.mk .runs "create" fields] := by
  constructor <;> simp [create, hval, hresp, decodeResponse, h500, successStatus]

/-- Witness for C5: the notebook's run-creation fields against a stub service
answering HTTP 500. -/
theorem run_create_service_error_no_retry_witness :
    (validIdents .runs
        [("project_id", PyVal.str "test_project"), ("expt_id", PyVal.str "test_experiment"),
         ("run_id", PyVal.str "test_run"), ("rounds", PyVal.int 2)]
      = true ∧
      (fun _ => some (Response.mk 500 []) : Service)
        (Request.mk .runs "create"
          [("project_id", PyVal.str "test_project"), ("expt_id", PyVal.str "test_experiment"),
           ("run_id", PyVal.str "test_run"), ("rounds", PyVal.int 2)])
      = some (Response.mk 500 []) ∧
      (Response.mk 500 ([] : List (String × PyVal))).status = 500) ∧
    ((create (fun _ => some (Response.mk 500 [])) .runs
        [("project_id", PyVal.str "test_project"), ("expt_id", PyVal.str "test_experiment"),
         ("run_id", PyVal.str "test_run"), ("rounds", PyVal.int 2)]).result
      = .error .serviceError ∧
      (create (fun _ => some (Response.mk 500 [])) .runs
        [("project_id", PyVal.str "test_project"), ("expt_id", PyVal.str "test_experiment"),
         ("run_id", PyVal.str "test_run"), ("rounds", PyVal.int 2)]).requests
      = [Request.mk .runs "create"
          [("project_id", PyVal.str "test_project"), ("expt_id", PyVal.str "test_experiment"),
           ("run_id", PyVal.str "test_run"), ("rounds", PyVal.int 2)]]) :=
  ⟨⟨by decide, rfl, rfl⟩,
    run_create_service_error_no_retry (fun _ => some (Response.mk 500 []))
      [("project_id", PyVal.str "test_project"), ("expt_id", PyVal.str "test_experiment"),
       ("run_id", PyVal.str "test_run"), ("rounds", PyVal.int 2)]
      (Response.mk 500 []) (by decide) rfl rfl⟩

/-- C6: against any service honouring the contract that registrations naming
unknown participants are rejected with a non-success status, a
registrations.create call whose participant_id was never created through the
participants sub-resource surfaces as NotFoundError or ServiceError, and
never returns a success result. -/
theorem registration_unknown_participant_rejected (svc : Service)
    (known : List String) (fields : List (String × PyVal)) (p : String)
    (hcontract : rejectsUnknownParticipant svc known)
    (hval : validIdents .registrations fields = true)
    (hp : lookupField fields "participant_id" = some (.str p))
    (hunknown : p ∉ known) :
    ((create svc .registrations fields).result = .error .notFoundError ∨
      (create svc .registrations fields).result = .error .serviceError) ∧
    ∀ payload, (create svc .registrations fields).result ≠ .ok payload := by
  obtain ⟨resp, hresp, hfail⟩ :=
    hcontract (Request.mk .registrations "create" fields) rfl rfl p hp hunknown
  constructor
  · by_cases h404 : resp.status = 404
    · exact Or.inl (by simp [create, hval, hresp, decodeResponse, hfail, h404, successStatus])
    · exact Or.inr (by simp [create, hval, hresp, decodeResponse, hfail, h404])
  · intro payload
    simp only [create, if_pos hval, hresp]
    simp [decodeResponse, hfail]
    split_ifs <;> simp

/-- Stub coordination service keeping a list of created participants: it
answers a registration naming an unknown participant with HTTP 404 and
everything else with an empty success payload. -/
def stubRegistrationService (known : List String) : Service :=
  fun req =>
    match lookupField req.payload "participant_id" with
    | some (.str s) =>
        if s ∈ known then some (Response.mk 200 []) else some (Response.mk 404 [])
    | _ => some (Response.mk 200 [])

/-- The stub registration service satisfies the rejection contract. -/
lemma stubRegistrationService_rejects (known : List String) :
    rejectsUnknownParticipant (stubRegistrationService known) known := by
  intro req _ _ p hp hnot
  refine ⟨Response.mk 404 [], ?_, by decide⟩
  simp [stubRegistrationService, hp, hnot]

/-- Witness for C6: registering "worker_9", never created through the
participants sub-resource, against the stub service knowing only "worker_1"
and "worker_2". -/
theorem registration_unknown_participant_rejected_witness :
    (validIdents .registrations
        [("project_id", PyVal.str "test_project"),
         ("participant_id", PyVal.str "worker_9"), ("role", PyVal.str "host")]
      = true ∧
      lookupField
        [("project_id", PyVal.str "test_project"),
         ("participant_id", PyVal.str "worker_9"), ("role", PyVal.str "host")]
        "participant_id"
      = some (.str "worker_9") ∧
      "worker_9" ∉ ["worker_1", "worker_2"]) ∧
    (((create (stubRegistrationService ["worker_1", "worker_2"]) .registrations
        [("project_id", PyVal.str "test_project"),
         ("participant_id", PyVal.str "worker_9"), ("role", PyVal.str "host")]).result
        = .error .notFoundError ∨
      (create (stubRegistrationService ["worker_1", "worker_2"]) .registrations
        [("project_id", PyVal.str "test_project"),
         ("participant_id", PyVal.str "worker_9"), ("role", PyVal.str "host")]).result
        = .error .serviceError) ∧
      ∀ payload,
        (create (stubRegistrationService ["worker_1", "worker_2"]) .registrations
          [("project_id", PyVal.str "test_project"),
           ("participant_id", PyVal.str "worker_9"), ("role", PyVal.str "host")]).result
        ≠ .ok payload) :=
  ⟨⟨by decide, rfl, by decide⟩,
    registration_unknown_participant_rejected
      (stubRegistrationService ["worker_1", "worker_2"]) ["worker_1", "worker_2"]
      [("project_id", PyVal.str "test_project"),
       ("participant_id", PyVal.str "worker_9"), ("role", PyVal.str "host")]
      "worker_9" (stubRegistrationService_rejects ["worker_1", "worker_2"])
      (by decide) rfl (by decide)⟩

/-- C7 counterexample: the README's call sequence and the notebook's call
sequence are not the same sequence of sub-resource operations — the README
opens with configure_logger/configure_mlops/configure_mq on collaborations,
absent from the notebook, and the notebook calls list_nodes on registrations,
absent from the README. -/
theorem identical_call_sequences_counterexample :
    ¬ (shapes readmeCalls = shapes notebookCalls) := by
  decide

/-- C7 amended: the two documented sequences invoke the same `create`
operations on the same sub-resources in the same order, and after removing
the README-only configure_* calls and the notebook-only list_nodes calls the
full method sequences coincide; the residual differences are parameter
values only. -/
theorem call_sequences_agree_modulo_extras :
    createSkeleton readmeCalls = createSkeleton notebookCalls ∧
      shapes (readmeCalls.filter (fun c => !(isConfigureMethod c.method))) =
        shapes (notebookCalls.filter (fun c => c.method != "list_nodes")) := by
  exact ⟨by decide, by decide⟩

/-- C8: the README's run-creation example is syntactically incomplete — its
round brackets do not balance, the call is never closed — while the
notebook's run-creation cell is bracket-complete. -/
theorem readme_run_create_unclosed_notebook_complete :
    parenBalanced readmeRunsCreateSnippet = false ∧
      parenBalanced notebookRunsCreateCell = true := by
  exact ⟨by decide, by decide⟩

/-- C9: in the README sequence, the collaborations sub-resource is driven
through configure_logger, configure_mlops and configure_mq before its create;
that create passes the collaboration identifier as the single positional
argument "test_collaboration" and no collab_id keyword; and the configure
methods record the endpoint configuration on the client state. -/
theorem collaborations_interface_shape :
    ((readmeCalls.filter (fun c => c.resource == Resource.collaborations)).map Call.method
        = ["configure_logger", "configure_mlops", "configure_mq", "create"]) ∧
    ((readmeCalls.filter (fun c =>
          c.resource == Resource.collaborations && c.method == "create")).map
        Call.positional
        = [[PyVal.str "test_collaboration"]]) ∧
    ((readmeCalls.filter (fun c =>
          c.resource == Resource.collaborations && c.method == "create")).map
        (fun c => lookupField c.named "collab_id")
        = [Option.none]) ∧
    (∀ s cfg, (stepState s (.configureLogger cfg)).loggerConfig = some cfg) ∧
    (∀ s cfg, (stepState s (.configureMlops cfg)).mlopsConfig = some cfg) ∧
    (∀ s cfg, (stepState s (.configureMq cfg)).mqConfig = some cfg) :=
  ⟨rfl, rfl, rfl, fun _ _ => rfl, fun _ _ => rfl, fun _ _ => rfl⟩

/-- C10: both documented call sequences are referentially closed — every
identifier a phase-2/3 create call passes (collab_id, project_id, expt_id,
run_id, participant_id) was introduced earlier in the same sequence by a
phase-1 create call with exactly that value. -/
theorem documented_sequences_referentially_closed :
    refClosed [] readmeCalls = true ∧ refClosed [] notebookCalls = true := by
  exact ⟨by decide, by decide⟩

end Synergos
